import Mathlib

/-!
Verification of the rust_metadata_carver plugin.

The plugin (a single Python module) recovers Rust panic-location records
from a binary under analysis.  The pipeline is:

  1. register the packed record type core::panic::Location;
  2. scan all data references of the string-slice type for backing byte
     data whose decoded text looks like a Rust source-file path;
  3. define a typed record at each such candidate address;
  4. for each record, decode its file/line/col fields and attach a user
     tag at every code reference to the record.

The host analysis database (Binary Ninja BinaryView) is modelled as an
explicit state record, with an event log of the mutating host calls so
that ordering relative to begin_undo_actions / commit_undo_actions is
observable.  Python exceptions that can escape the plugin code
(UnicodeDecodeError from bytes.decode, UnboundLocalError from the
conditionally-assigned candidate_path variable, attribute/key errors from
dynamic value access) are modelled with Except.
-/

/-- Decoded value of a data variable, as the Python bindings present it.
A bytes value is represented by the result of decoding it as UTF-8:
some text when the raw bytes are valid UTF-8, none when they are not. -/
inductive PyValue where
  /-- raw bytes; the field is the UTF-8 decode result (none = invalid UTF-8) -/
  | bytes (decoded : Option String)
  /-- an already-decoded text value -/
  | text (s : String)
  /-- the dictionary value of a string-slice struct, holding key _address -/
  | strView (backAddr : Nat)
  /-- the dictionary value of a core panic Location struct: file/line/col -/
  | record (fileAddr : Nat) (line : Nat) (col : Nat)
  /-- some other non-None value (neither bytes nor text nor a dict) -/
  | intVal (n : Nat)
deriving DecidableEq, Repr

/-- A data variable of the analysis database: address, name, type string,
and decoded value (none models a Python value of None). -/
structure DataVariable where
  address : Nat
  name : String
  varType : String
  value : Option PyValue
deriving DecidableEq, Repr

/-- A tag attached at an address. -/
structure Tag where
  addr : Nat
  tagTypeName : String
  data : String
  user : Bool
deriving DecidableEq, Repr

/-- Mutating host calls, in program order. -/
inductive Event where
  | definedType (name : String)
  | definedData (addr : Nat)
  | createdTagType (name : String)
  | addedTag (addr : Nat)
  | beganUndo
  | committedUndo
  | updatedAnalysis
deriving DecidableEq, Repr

/-- Python exceptions that can escape the plugin code. -/
inductive PyError where
  /-- UnicodeDecodeError raised by bytes.decode applied to invalid UTF-8 -/
  | decodeError
  /-- UnboundLocalError: candidate_path referenced before assignment -/
  | unboundLocal
  /-- AttributeError: .get or .decode on a value lacking that attribute -/
  | attributeError
  /-- TypeError / KeyError: subscripting a value that is not the expected dict -/
  | indexError
deriving DecidableEq, Repr

/-- The analysis database (BinaryView) state.  recordAt gives the record
fields obtained by decoding the memory at an address as the packed
core panic Location layout; defineOk tells whether the host accepts a
typed data-object definition at an address (false models a conflicting
incompatible object already defined there). -/
structure BinaryView where
  archPresent : Bool
  platformName : String
  strRefs : List Nat
  dataVars : List (Nat × DataVariable)
  types : List (String × List (String × String))
  recordAt : Nat → Nat × Nat × Nat
  defineOk : Nat → Bool
  codeRefs : Nat → List Nat
  tagTypes : List (String × String)
  tags : List Tag
  events : List Event

/-! ### Character-list string utilities (kernel-reducible) -/

/-- Whether the first list is a prefix of the second. -/
def listIsPre : List Char → List Char → Bool
  | [], _ => true
  | _ :: _, [] => false
  | a :: as, b :: bs => a == b && listIsPre as bs

/-- Whether sub occurs as a contiguous sublist of cs. -/
def listHasSub (sub : List Char) : List Char → Bool
  | [] => listIsPre sub []
  | c :: rest => listIsPre sub (c :: rest) || listHasSub sub rest

/-- Python substring containment: sub in s. -/
def strContains (s sub : String) : Bool := listHasSub sub.data s.data

/-- Split a character list on a separator character (keeping empty pieces,
as the Python path parser sees them before filtering). -/
def splitChar (sep : Char) : List Char → List Char → List (List Char)
  | [], acc => [acc.reverse]
  | c :: rest, acc =>
    if c == sep then acc.reverse :: splitChar sep rest []
    else splitChar sep rest (c :: acc)

/-! ### pathlib semantics: name and suffix -/

/-- Last path component under POSIX rules: split on slash, drop empty
components and single-dot components, take the last (empty for a bare
root or empty path). -/
def posixNameChars (s : String) : List Char :=
  ((splitChar '/' s.data []).filter
    (fun c => !c.isEmpty && c != ['.'])).getLastD []

/-- Normalize a Windows path string: backslashes become slashes and a
leading drive (letter followed by colon) is stripped. -/
def windowsNormalize (s : String) : List Char :=
  let cs := s.data.map (fun c => if c == '\\' then '/' else c)
  match cs with
  | c :: ':' :: rest => if c.isAlpha then rest else cs
  | _ => cs

/-- Last path component under Windows rules. -/
def windowsNameChars (s : String) : List Char :=
  ((splitChar '/' (windowsNormalize s) []).filter
    (fun c => !c.isEmpty && c != ['.'])).getLastD []

/-- pathlib suffix of a file name: the text from the last dot on, except
when the name has no dot, ends in a dot, or consists of a single leading
dot followed by the rest (a hidden file has no suffix). -/
def pySuffixChars (name : List Char) : List Char :=
  let parts := splitChar '.' name []
  match parts with
  | [] => []
  | [_] => []
  | ps =>
    let last := ps.getLastD []
    if last.isEmpty then []
    else if ps.length == 2 && (ps.headD []).isEmpty then []
    else '.' :: last

/-- The classification of lines 112-116 of the plugin: pick Windows or
POSIX path parsing according to whether the platform name contains
"windows", then compare the parsed path suffix with ".rs". -/
def classify_candidate (platformName candidate_path : String) : Bool :=
  let nameChars :=
    if strContains platformName "windows" then windowsNameChars candidate_path
    else posixNameChars candidate_path
  pySuffixChars nameChars == ".rs".data

example : classify_candidate "linux" "src/main.rs" = true := by decide
example : classify_candidate "linux" "src/main.RS" = false := by decide
example : classify_candidate "windows-x86_64" "C:\\proj\\lib.rs" = true := by decide
example : classify_candidate "linux" "notasourcefile.txt" = false := by decide
example : classify_candidate "linux" ".rs" = false := by decide
example : classify_candidate "linux" "a/b/" = false := by decide
example : strContains "windows-x86_64" "windows" = true := by decide
example : strContains "linux" "windows" = false := by decide

/-! ### Host primitives of the analysis database -/

/-- Look up a registered type by name. -/
def lookupType (n : String) : List (String × List (String × String)) →
    Option (List (String × String))
  | [] => none
  | t :: ts => if t.1 = n then some t.2 else lookupType n ts

/-- Replace the entry registered under a name. -/
def replaceType (n : String) (f : List (String × String)) :
    List (String × List (String × String)) →
    List (String × List (String × String))
  | [] => []
  | t :: ts => (if t.1 = n then (n, f) else t) :: replaceType n f ts

/-- Look up the data variable stored at an address. -/
def lookupVar (a : Nat) : List (Nat × DataVariable) → Option DataVariable
  | [] => none
  | v :: vs => if v.1 = a then some v.2 else lookupVar a vs

/-- Insert a data variable at an address, replacing any existing one. -/
def upsertVar (a : Nat) (dv : DataVariable) :
    List (Nat × DataVariable) → List (Nat × DataVariable)
  | [] => [(a, dv)]
  | v :: vs => if v.1 = a then (a, dv) :: vs else v :: upsertVar a dv vs

def BinaryView.get_type_by_name (bv : BinaryView) (n : String) :
    Option (List (String × String)) :=
  lookupType n bv.types

/-- Register a user type under a name: the registry is keyed by name, so a
second definition under the same name replaces the first.  The call is a
mutation of the database either way, hence the unconditional event. -/
def BinaryView.define_user_type (bv : BinaryView) (n : String)
    (fields : List (String × String)) : BinaryView :=
  { bv with
    types := if (lookupType n bv.types).isSome
             then replaceType n fields bv.types
             else bv.types ++ [(n, fields)]
    events := bv.events ++ [Event.definedType n] }

def BinaryView.get_data_var_at (bv : BinaryView) (a : Nat) : Option DataVariable :=
  lookupVar a bv.dataVars

/-- The record value the host decodes when a data object of the panic
Location type is defined at an address. -/
def recordValueAt (bv : BinaryView) (a : Nat) : PyValue :=
  match bv.recordAt a with
  | (f, l, c) => PyValue.record f l c

/-- Define a typed user data object.  The host refuses (returns none,
e.g. because an incompatible object overlaps the address) exactly when
defineOk is false; on success the new object replaces whatever variable
was recorded at that address. -/
def BinaryView.define_user_data_var (bv : BinaryView) (addr : Nat)
    (varType nm : String) : Option DataVariable × BinaryView :=
  if bv.defineOk addr then
    let dv : DataVariable :=
      { address := addr, name := nm, varType := varType,
        value := some (recordValueAt bv addr) }
    (some dv,
      { bv with
        dataVars := upsertVar addr dv bv.dataVars
        events := bv.events ++ [Event.definedData addr] })
  else (none, bv)

/-- Create a tag type; a second creation under the same name keeps the
registry unchanged, but the call still mutates the database. -/
def BinaryView.create_tag_type (bv : BinaryView) (n icon : String) : BinaryView :=
  { bv with
    tagTypes := if bv.tagTypes.any (fun t => t.1 == n) then bv.tagTypes
                else bv.tagTypes ++ [(n, icon)]
    events := bv.events ++ [Event.createdTagType n] }

def BinaryView.add_tag (bv : BinaryView) (addr : Nat)
    (tagTypeName data : String) (user : Bool) : BinaryView :=
  { bv with
    tags := bv.tags ++ [{ addr := addr, tagTypeName := tagTypeName,
                          data := data, user := user }]
    events := bv.events ++ [Event.addedTag addr] }

def BinaryView.begin_undo_actions (bv : BinaryView) : BinaryView :=
  { bv with events := bv.events ++ [Event.beganUndo] }

def BinaryView.commit_undo_actions (bv : BinaryView) : BinaryView :=
  { bv with events := bv.events ++ [Event.committedUndo] }

def BinaryView.update_analysis (bv : BinaryView) : BinaryView :=
  { bv with events := bv.events ++ [Event.updatedAnalysis] }

/-! ### CorePanicLocation (lines 19-87) -/

/-- The structural fields built for the packed record type (a string-slice
reference, then two 4-byte integers). -/
def corePanicLocationFields : List (String × String) :=
  [("&str", "file"), ("uint32_t", "line"), ("uint32_t", "col")]

def CorePanicLocation.check_binary_ninja_type_exists (bv : BinaryView) : Bool :=
  (bv.get_type_by_name "core::panic::Location").isSome

/-- Lines 48-71: when an architecture is present, build the packed struct
and register it under core::panic::Location.  No existence check is made
before registering. -/
def CorePanicLocation.create_binary_ninja_type (bv : BinaryView) : BinaryView :=
  if bv.archPresent then
    bv.define_user_type "core::panic::Location" corePanicLocationFields
  else bv

/-- Lines 73-87: define a typed record object at the given location.  The
source passes the type as a quoted type string naming
core::panic::Location, which the host parses to the registered type. -/
def CorePanicLocation.create_binary_ninja_instance (bv : BinaryView)
    (location : Nat) (nm : String) : Option DataVariable × BinaryView :=
  bv.define_user_data_var location "core::panic::Location" nm

/-! ### Candidate scanner (lines 93-119) -/

/-- Python value.get applied with key _address: returns the entry on a
string-slice dict, none on a dict without that key, and raises
AttributeError on None or on a non-dict value. -/
def valueGetAddress : Option PyValue → Except PyError (Option Nat)
  | some (PyValue.strView a) => Except.ok (some a)
  | some (PyValue.record _ _ _) => Except.ok none
  | some (PyValue.bytes _) => Except.error PyError.attributeError
  | some (PyValue.text _) => Except.error PyError.attributeError
  | some (PyValue.intVal _) => Except.error PyError.attributeError
  | none => Except.error PyError.attributeError

/-- The scan loop of lines 98-118.  stale models the Python local variable
candidate_path, which is only conditionally assigned (lines 107-110): on a
value that is neither bytes nor text the variable keeps the value decoded
for an earlier reference, and reading it before any assignment raises
UnboundLocalError.  A bytes value that is invalid UTF-8 raises
UnicodeDecodeError; both exceptions abort the whole scan. -/
def scanLoop (bv : BinaryView) :
    List Nat → Option String → List DataVariable →
    Except PyError (List DataVariable)
  | [], _, acc => Except.ok acc
  | r :: rest, stale, acc =>
    match bv.get_data_var_at r with
    | none => scanLoop bv rest stale acc
    | some dv =>
      match valueGetAddress dv.value with
      | Except.error e => Except.error e
      | Except.ok none => scanLoop bv rest stale acc
      | Except.ok (some strAddr) =>
        match bv.get_data_var_at strAddr with
        | none => scanLoop bv rest stale acc
        | some sd =>
          match sd.value with
          | none => scanLoop bv rest stale acc
          | some v =>
            let cand : Except PyError String :=
              match v with
              | PyValue.bytes (some s) => Except.ok s
              | PyValue.bytes none => Except.error PyError.decodeError
              | PyValue.text s => Except.ok s
              | _ =>
                match stale with
                | some s => Except.ok s
                | none => Except.error PyError.unboundLocal
            match cand with
            | Except.error e => Except.error e
            | Except.ok s =>
              scanLoop bv rest (some s)
                (if classify_candidate bv.platformName s then acc ++ [dv] else acc)

def find_string_slice_variables_containing_source_file_path
    (bv : BinaryView) : Except PyError (List DataVariable) :=
  scanLoop bv bv.strRefs none []

/-! ### Record synthesizer (lines 121-139) -/

def setPanicLocationsLoop : BinaryView → List DataVariable →
    List DataVariable → List DataVariable × BinaryView
  | bv, [], acc => (acc, bv)
  | bv, c :: rest, acc =>
    match CorePanicLocation.create_binary_ninja_instance bv c.address
        ("panic_location_" ++ c.name) with
    | (some dv, bv2) => setPanicLocationsLoop bv2 rest (acc ++ [dv])
    | (none, bv2) => setPanicLocationsLoop bv2 rest acc

def set_panic_locations_from_source_file_path_string_variables
    (bv : BinaryView) (source_file_paths : List DataVariable) :
    List DataVariable × BinaryView :=
  if CorePanicLocation.check_binary_ninja_type_exists bv then
    setPanicLocationsLoop bv source_file_paths []
  else ([], bv)

/-! ### Reference resolver and tag writer (lines 141-176) -/

/-- Python value.decode("utf-8") on a data-variable value: succeeds on
valid-UTF-8 bytes, raises UnicodeDecodeError on invalid bytes, and raises
AttributeError on None or any non-bytes value. -/
def valueDecode : Option PyValue → Except PyError String
  | some (PyValue.bytes (some s)) => Except.ok s
  | some (PyValue.bytes none) => Except.error PyError.decodeError
  | some _ => Except.error PyError.attributeError
  | none => Except.error PyError.attributeError

/-- Appending one tag per code reference (lines 166-173). -/
def addTagsAtRefs (ttn data : String) : List Nat → BinaryView → BinaryView
  | [], bv => bv
  | cr :: crs, bv => addTagsAtRefs ttn data crs (bv.add_tag cr ttn data true)

def find_panic_location_code_refs_and_set_tags :
    BinaryView → List DataVariable → Except PyError BinaryView
  | bv, [] => Except.ok bv
  | bv, p :: rest =>
    match p.value with
    | some (PyValue.record fileAddr line col) =>
      match bv.get_data_var_at fileAddr with
      | none => find_panic_location_code_refs_and_set_tags bv rest
      | some sd =>
        match valueDecode sd.value with
        | Except.error e => Except.error e
        | Except.ok path =>
          let ttn := path ++ " - Rust Panic Location Source File Path"
          let bv2 := bv.create_tag_type ttn "😱"
          let data := path ++ ": line " ++ toString line ++ ", col " ++ toString col
          let bv3 := addTagsAtRefs ttn data (bv.codeRefs p.address) bv2
          find_panic_location_code_refs_and_set_tags bv3 rest
    | _ => Except.error PyError.indexError

/-! ### Entry point (lines 178-189) -/

/-- The entry point.  Note the order of line 178 versus line 180: the type
registration call precedes begin_undo_actions. -/
def Carver.main (bv0 : BinaryView) : Except PyError BinaryView :=
  let bv1 := CorePanicLocation.create_binary_ninja_type bv0
  let bv2 := bv1.begin_undo_actions
  match find_string_slice_variables_containing_source_file_path bv2 with
  | Except.error e => Except.error e
  | Except.ok source_file_paths =>
    match set_panic_locations_from_source_file_path_string_variables
        bv2 source_file_paths with
    | (panic_locations, bv3) =>
      match find_panic_location_code_refs_and_set_tags bv3 panic_locations with
      | Except.error e => Except.error e
      | Except.ok bv4 => Except.ok (bv4.commit_undo_actions).update_analysis

/-- Run the entry point, falling back to the input state on an exception
(used only to state facts about the result of a successful run). -/
def runMainOr (bv : BinaryView) : BinaryView :=
  match Carver.main bv with
  | Except.ok b => b
  | Except.error _ => bv

def exceptIsOk : Except PyError BinaryView → Bool
  | Except.ok _ => true
  | Except.error _ => false

/-! ### Concrete fixtures -/

/-- A minimal view: architecture present, nothing to scan. -/
def bvMin : BinaryView :=
  { archPresent := true
    platformName := "linux"
    strRefs := []
    dataVars := []
    types := []
    recordAt := fun _ => (0, 0, 0)
    defineOk := fun _ => true
    codeRefs := fun _ => []
    tagTypes := []
    tags := []
    events := [] }

/-- The end-to-end scenario of the spec: a string-view object at 0x1000
backed by the path bytes at 0x3000, the record bytes at 0x1000 decoding to
line 42 / col 9, and one code reference at 0x2000 to 0x1000. -/
def bvC4 : BinaryView :=
  { archPresent := true
    platformName := "linux"
    strRefs := [0x1000]
    dataVars :=
      [(0x1000, { address := 0x1000, name := "str_panic_path", varType := "&str",
                  value := some (PyValue.strView 0x3000) }),
       (0x3000, { address := 0x3000, name := "panic_path_bytes",
                  varType := "char const[25]",
                  value := some (PyValue.bytes (some "library/core/src/panic.rs")) })]
    types := []
    recordAt := fun a => if a = 0x1000 then (0x3000, 42, 9) else (0, 0, 0)
    defineOk := fun _ => true
    codeRefs := fun a => if a = 0x1000 then [0x2000] else []
    tagTypes := []
    tags := []
    events := [] }

example : exceptIsOk (Carver.main bvC4) = true := by decide
example : (runMainOr bvC4).tags =
    [{ addr := 0x2000,
       tagTypeName := "library/core/src/panic.rs - Rust Panic Location Source File Path",
       data := "library/core/src/panic.rs: line 42, col 9",
       user := true }] := by decide
example : (runMainOr bvC4).events =
    [Event.definedType "core::panic::Location", Event.beganUndo,
     Event.definedData 0x1000, Event.createdTagType "library/core/src/panic.rs - Rust Panic Location Source File Path",
     Event.addedTag 0x2000, Event.committedUndo, Event.updatedAnalysis] := by decide

/-! ### Claim C4: end-to-end scenario -/

/-- C4: on a model with one string-view object at 0x1000 backed by the
bytes "library/core/src/panic.rs", platform "linux", record bytes at
0x1000 encoding line 42 / col 9, and one code reference at 0x2000: the
full pipeline registers the record type under its canonical name, creates
a typed record object at 0x1000, creates a tag-type whose name contains
the literal path, and adds exactly one user tag at 0x2000 whose payload
contains "line 42, col 9". -/
theorem c4_end_to_end_scenario :
    exceptIsOk (Carver.main bvC4) = true ∧
    (runMainOr bvC4).get_type_by_name "core::panic::Location" =
      some corePanicLocationFields ∧
    (runMainOr bvC4).get_data_var_at 0x1000 =
      some { address := 0x1000, name := "panic_location_str_panic_path",
             varType := "core::panic::Location",
             value := some (PyValue.record 0x3000 42 9) } ∧
    (runMainOr bvC4).tagTypes.map Prod.fst =
      ["library/core/src/panic.rs - Rust Panic Location Source File Path"] ∧
    strContains "library/core/src/panic.rs - Rust Panic Location Source File Path"
      "library/core/src/panic.rs" = true ∧
    ((runMainOr bvC4).tags.filter (fun t => t.addr == 0x2000 && t.user)) =
      [{ addr := 0x2000,
         tagTypeName := "library/core/src/panic.rs - Rust Panic Location Source File Path",
         data := "library/core/src/panic.rs: line 42, col 9", user := true }] ∧
    strContains "library/core/src/panic.rs: line 42, col 9" "line 42, col 9" = true := by
  refine ⟨?_, ?_, ?_, ?_, ?_, ?_, ?_⟩ <;> decide

/-! ### Claim C5: the path classifier -/

/-- C5: the classifier returns true iff the path parsed from the decoded
text (Windows semantics when the platform name contains "windows", POSIX
semantics otherwise) has a suffix case-sensitively equal to ".rs"; in
particular "src/main.rs" is accepted, "src/main.RS" is rejected,
"C:\proj\lib.rs" is accepted on a windows platform, and
"notasourcefile.txt" is rejected. -/
theorem c5_classifier_extension :
    (∀ p s : String, classify_candidate p s = true ↔
        pySuffixChars (if strContains p "windows" then windowsNameChars s
                       else posixNameChars s) = ".rs".data) ∧
    classify_candidate "linux" "src/main.rs" = true ∧
    classify_candidate "linux" "src/main.RS" = false ∧
    classify_candidate "windows-x86_64" "C:\\proj\\lib.rs" = true ∧
    classify_candidate "linux" "notasourcefile.txt" = false := by
  refine ⟨fun p s => ?_, by decide, by decide, by decide, by decide⟩
  unfold classify_candidate
  exact beq_iff_eq

/-! ### Claim C6: the scanner skips unresolved references -/

/-- C6: a string-view reference for which any resolution step returns
absent (no data object at the reference, no back-reference address in its
value, or no backing data object / no backing value at that address) is
skipped: it contributes no result, and the scan proceeds over the
remaining references exactly as if the reference were not there. -/
theorem c6_scanner_skips_unresolved (bv : BinaryView) (r : Nat)
    (rest : List Nat) (stale : Option String) (acc : List DataVariable)
    (h : bv.get_data_var_at r = none
      ∨ (∃ dv, bv.get_data_var_at r = some dv
          ∧ valueGetAddress dv.value = Except.ok none)
      ∨ (∃ dv a, bv.get_data_var_at r = some dv
          ∧ valueGetAddress dv.value = Except.ok (some a)
          ∧ (bv.get_data_var_at a = none
             ∨ ∃ sd, bv.get_data_var_at a = some sd ∧ sd.value = none))) :
    scanLoop bv (r :: rest) stale acc = scanLoop bv rest stale acc := by
  rcases h with h1 | ⟨dv, h1, h2⟩ | ⟨dv, a, h1, h2, h3⟩
  · simp [scanLoop, h1]
  · simp [scanLoop, h1, h2]
  · rcases h3 with h3 | ⟨sd, h3, h4⟩
    · simp [scanLoop, h1, h2, h3]
    · simp [scanLoop, h1, h2, h3, h4]

def bvSkip : BinaryView := { bvMin with strRefs := [7] }

/-- Witness for C6 at a concrete view with no data object at address 7. -/
theorem c6_scanner_skips_unresolved_witness :
    bvSkip.get_data_var_at 7 = none ∧
    scanLoop bvSkip [7] none [] = scanLoop bvSkip [] none [] :=
  ⟨rfl, c6_scanner_skips_unresolved bvSkip 7 [] none [] (Or.inl rfl)⟩

/-! ### Claim C8: synthesis without a registered type -/

/-- C8: when the record type is not registered, synthesis returns the
empty list and leaves the database untouched, rather than failing. -/
theorem c8_synthesize_requires_type (bv : BinaryView)
    (cands : List DataVariable)
    (h : CorePanicLocation.check_binary_ninja_type_exists bv = false) :
    set_panic_locations_from_source_file_path_string_variables bv cands
      = ([], bv) := by
  simp [set_panic_locations_from_source_file_path_string_variables, h]

def dvSample : DataVariable :=
  { address := 0x1000, name := "s", varType := "&str",
    value := some (PyValue.strView 0x3000) }

/-- Witness for C8: bvMin has no registered types. -/
theorem c8_synthesize_requires_type_witness :
    CorePanicLocation.check_binary_ninja_type_exists bvMin = false ∧
    set_panic_locations_from_source_file_path_string_variables bvMin [dvSample]
      = ([], bvMin) :=
  ⟨rfl, c8_synthesize_requires_type bvMin [dvSample] rfl⟩

/-! ### Claim C9: records with unresolved file back-references -/

/-- C9: a record whose file back-reference address resolves to no data
object produces zero markers and zero new tag-types, and the remaining
records are processed exactly as if the record were not there. -/
theorem c9_annotator_skips_unresolved_file (bv : BinaryView)
    (rest : List DataVariable) (addr : Nat) (nm vt : String) (f l c : Nat)
    (h : bv.get_data_var_at f = none) :
    find_panic_location_code_refs_and_set_tags bv
        ({ address := addr, name := nm, varType := vt,
           value := some (PyValue.record f l c) } :: rest)
      = find_panic_location_code_refs_and_set_tags bv rest := by
  simp [find_panic_location_code_refs_and_set_tags, h]

/-- Witness for C9 at a concrete record whose file field points at 0x50,
an address holding no data object. -/
theorem c9_annotator_skips_unresolved_file_witness :
    bvMin.get_data_var_at 0x50 = none ∧
    find_panic_location_code_refs_and_set_tags bvMin
        [{ address := 0x10, name := "pl", varType := "core::panic::Location",
           value := some (PyValue.record 0x50 1 2) }]
      = find_panic_location_code_refs_and_set_tags bvMin [] :=
  ⟨rfl, c9_annotator_skips_unresolved_file bvMin [] 0x10 "pl"
    "core::panic::Location" 0x50 1 2 rfl⟩

/-! ### Claim C10: the stale candidate_path variable -/

/-- Whether a value is neither a bytes value nor a text value. -/
def notBytesNorText : PyValue → Bool
  | PyValue.bytes _ => false
  | PyValue.text _ => false
  | _ => true

/-- C10: a reference whose backing value is non-None but neither bytes nor
text is not skipped: it is classified using the path text decoded for an
earlier reference of the same scan (the conditionally-assigned local
variable), and when no earlier reference produced a decoded path the scan
aborts with an unbound-variable error. -/
theorem c10_stale_candidate_path (bv : BinaryView) (r : Nat)
    (rest : List Nat) (acc : List DataVariable) (dv sd : DataVariable)
    (a : Nat) (v : PyValue)
    (h1 : bv.get_data_var_at r = some dv)
    (h2 : valueGetAddress dv.value = Except.ok (some a))
    (h3 : bv.get_data_var_at a = some sd)
    (h4 : sd.value = some v)
    (h5 : notBytesNorText v = true) :
    (∀ s : String, scanLoop bv (r :: rest) (some s) acc =
        scanLoop bv rest (some s)
          (if classify_candidate bv.platformName s then acc ++ [dv] else acc)) ∧
    scanLoop bv (r :: rest) none acc = Except.error PyError.unboundLocal := by
  cases v with
  | bytes d => simp [notBytesNorText] at h5
  | text s => simp [notBytesNorText] at h5
  | strView b =>
    exact ⟨fun s => by simp [scanLoop, h1, h2, h3, h4],
           by simp [scanLoop, h1, h2, h3, h4]⟩
  | record f li c =>
    exact ⟨fun s => by simp [scanLoop, h1, h2, h3, h4],
           by simp [scanLoop, h1, h2, h3, h4]⟩
  | intVal n =>
    exact ⟨fun s => by simp [scanLoop, h1, h2, h3, h4],
           by simp [scanLoop, h1, h2, h3, h4]⟩

def dvW10 : DataVariable :=
  { address := 1, name := "sv", varType := "&str",
    value := some (PyValue.strView 2) }

def dvW10b : DataVariable :=
  { address := 2, name := "x", varType := "int",
    value := some (PyValue.intVal 5) }

def bvW10 : BinaryView :=
  { bvMin with strRefs := [1], dataVars := [(1, dvW10), (2, dvW10b)] }

/-- Witness for C10 at a backing value that is an integer. -/
theorem c10_stale_candidate_path_witness :
    scanLoop bvW10 [1] (some "a/b.rs") [] =
      scanLoop bvW10 [] (some "a/b.rs")
        (if classify_candidate bvW10.platformName "a/b.rs"
         then [] ++ [dvW10] else []) ∧
    scanLoop bvW10 [1] none [] = Except.error PyError.unboundLocal :=
  ⟨(c10_stale_candidate_path bvW10 1 [] [] dvW10 dvW10b 2 (PyValue.intVal 5)
      rfl rfl rfl rfl rfl).1 "a/b.rs",
   (c10_stale_candidate_path bvW10 1 [] [] dvW10 dvW10b 2 (PyValue.intVal 5)
      rfl rfl rfl rfl rfl).2⟩

/-! ### Claim C3: decode failures during the scan -/

def dvC3s1 : DataVariable :=
  { address := 0x10, name := "s1", varType := "&str",
    value := some (PyValue.strView 0x100) }

def dvC3b1 : DataVariable :=
  { address := 0x100, name := "b1", varType := "char const[4]",
    value := some (PyValue.bytes none) }

def dvC3s2 : DataVariable :=
  { address := 0x20, name := "s2", varType := "&str",
    value := some (PyValue.strView 0x200) }

def dvC3b2 : DataVariable :=
  { address := 0x200, name := "b2", varType := "char const[10]",
    value := some (PyValue.bytes (some "src/lib.rs")) }

/-- Two candidates: the first backed by invalid UTF-8, the second by a
valid Rust source path. -/
def bvC3 : BinaryView :=
  { bvMin with
    strRefs := [0x10, 0x20]
    dataVars := [(0x10, dvC3s1), (0x100, dvC3b1),
                 (0x20, dvC3s2), (0x200, dvC3b2)] }

/-- C3 counterexample: a candidate with invalid-UTF-8 backing bytes is not
skipped; the decode error aborts the whole scan (the valid candidate after
it is never reached) and the overall run fails. -/
theorem c3_counterexample :
    find_string_slice_variables_containing_source_file_path bvC3 =
      Except.error PyError.decodeError ∧
    exceptIsOk (Carver.main bvC3) = false :=
  ⟨rfl, rfl⟩

/-- C3 amended: for every reference that resolves to backing bytes that
are invalid UTF-8, the scan raises the decode error, aborting the scan
(remaining references are not processed). -/
theorem c3_amended_decode_aborts_scan (bv : BinaryView) (r a : Nat)
    (rest : List Nat) (stale : Option String) (acc : List DataVariable)
    (dv sd : DataVariable)
    (h1 : bv.get_data_var_at r = some dv)
    (h2 : valueGetAddress dv.value = Except.ok (some a))
    (h3 : bv.get_data_var_at a = some sd)
    (h4 : sd.value = some (PyValue.bytes none)) :
    scanLoop bv (r :: rest) stale acc = Except.error PyError.decodeError := by
  simp [scanLoop, h1, h2, h3, h4]

/-- Witness for the amended C3 at the concrete two-candidate view. -/
theorem c3_amended_decode_aborts_scan_witness :
    scanLoop bvC3 [0x10, 0x20] none [] = Except.error PyError.decodeError :=
  c3_amended_decode_aborts_scan bvC3 0x10 0x100 [0x20] none [] dvC3s1 dvC3b1
    rfl rfl rfl rfl

/-! ### Claim C2: type registration -/

/-- Number of registered types carrying a given name. -/
def countTypeName (n : String) : List (String × List (String × String)) → Nat
  | [] => 0
  | t :: ts => (if t.1 = n then 1 else 0) + countTypeName n ts

theorem countTypeName_append (n : String)
    (ts us : List (String × List (String × String))) :
    countTypeName n (ts ++ us) = countTypeName n ts + countTypeName n us := by
  induction ts with
  | nil => simp [countTypeName]
  | cons t ts ih => simp [countTypeName, ih, Nat.add_assoc]

theorem countTypeName_eq_zero (n : String)
    (ts : List (String × List (String × String)))
    (h : lookupType n ts = none) : countTypeName n ts = 0 := by
  induction ts with
  | nil => rfl
  | cons t ts ih =>
    by_cases ht : t.1 = n
    · simp [lookupType, ht] at h
    · simp [lookupType, ht] at h
      simp [countTypeName, ht, ih h]

theorem lookupType_append_self (n : String) (f : List (String × String))
    (ts : List (String × List (String × String)))
    (h : lookupType n ts = none) :
    lookupType n (ts ++ [(n, f)]) = some f := by
  induction ts with
  | nil => simp [lookupType]
  | cons t ts ih =>
    by_cases ht : t.1 = n
    · simp [lookupType, ht] at h
    · simp [lookupType, ht] at h ⊢
      exact ih h

theorem countTypeName_replace (n : String) (f : List (String × String))
    (ts : List (String × List (String × String))) :
    countTypeName n (replaceType n f ts) = countTypeName n ts := by
  induction ts with
  | nil => rfl
  | cons t ts ih =>
    by_cases ht : t.1 = n <;> simp [replaceType, countTypeName, ht, ih]

/-- A view on which the record type is already registered. -/
def bvTy : BinaryView :=
  { bvMin with types := [("core::panic::Location", corePanicLocationFields)] }

/-- C2 counterexample: the record type already exists, yet the
registration call does not return without side effects — it re-registers
the type, recording a fresh mutation of the database. -/
theorem c2_counterexample :
    CorePanicLocation.check_binary_ninja_type_exists bvTy = true ∧
    (CorePanicLocation.create_binary_ninja_type bvTy).events ≠ bvTy.events := by
  exact ⟨rfl, by decide⟩

/-- C2 amended: the registration call makes no existence check and, when
an architecture is present, registers the type unconditionally on every
call; because the registry is keyed by name, calling it twice starting
from a registry without the name still leaves exactly one registered type
under the canonical name, while the database is mutated on both calls. -/
theorem c2_amended_registration_unchecked (bv : BinaryView)
    (ha : bv.archPresent = true)
    (ht : lookupType "core::panic::Location" bv.types = none) :
    countTypeName "core::panic::Location"
      (CorePanicLocation.create_binary_ninja_type
        (CorePanicLocation.create_binary_ninja_type bv)).types = 1 ∧
    (CorePanicLocation.create_binary_ninja_type
        (CorePanicLocation.create_binary_ninja_type bv)).events =
      bv.events ++ [Event.definedType "core::panic::Location",
                    Event.definedType "core::panic::Location"] := by
  have h1 : CorePanicLocation.create_binary_ninja_type bv =
      bv.define_user_type "core::panic::Location" corePanicLocationFields := by
    simp [CorePanicLocation.create_binary_ninja_type, ha]
  have h2 : bv.define_user_type "core::panic::Location" corePanicLocationFields
      = { bv with
          types := bv.types ++ [("core::panic::Location", corePanicLocationFields)]
          events := bv.events ++ [Event.definedType "core::panic::Location"] } := by
    simp [BinaryView.define_user_type, ht]
  rw [h1, h2]
  have ha2 : ({ bv with
      types := bv.types ++ [("core::panic::Location", corePanicLocationFields)]
      events := bv.events ++ [Event.definedType "core::panic::Location"]
      : BinaryView }).archPresent = true := ha
  have hl2 : lookupType "core::panic::Location"
      (bv.types ++ [("core::panic::Location", corePanicLocationFields)])
      = some corePanicLocationFields :=
    lookupType_append_self _ _ _ ht
  constructor
  · simp [CorePanicLocation.create_binary_ninja_type, ha,
      BinaryView.define_user_type, hl2, countTypeName_replace,
      countTypeName_append, countTypeName_eq_zero _ _ ht, countTypeName]
  · simp [CorePanicLocation.create_binary_ninja_type, ha,
      BinaryView.define_user_type, hl2]

/-- Witness for the amended C2 at bvMin (architecture present, empty
registry). -/
theorem c2_amended_registration_unchecked_witness :
    countTypeName "core::panic::Location"
      (CorePanicLocation.create_binary_ninja_type
        (CorePanicLocation.create_binary_ninja_type bvMin)).types = 1 ∧
    (CorePanicLocation.create_binary_ninja_type
        (CorePanicLocation.create_binary_ninja_type bvMin)).events =
      bvMin.events ++ [Event.definedType "core::panic::Location",
                       Event.definedType "core::panic::Location"] :=
  c2_amended_registration_unchecked bvMin rfl rfl

/-! ### Claim C7: synthesis skips failed definitions -/

/-- The record object created for a candidate (deterministic name, record
type, value decoded from the memory at the candidate address). -/
def panicVarFor (bv : BinaryView) (c : DataVariable) : DataVariable :=
  { address := c.address, name := "panic_location_" ++ c.name,
    varType := "core::panic::Location",
    value := some (recordValueAt bv c.address) }

/-- Defining data objects changes neither the memory interpretation nor
the record decoding, so the created record value only depends on the
initial view. -/
theorem recordValueAt_update (bv : BinaryView)
    (dvs : List (Nat × DataVariable)) (evs : List Event) (a : Nat) :
    recordValueAt { bv with dataVars := dvs, events := evs } a
      = recordValueAt bv a := rfl

theorem setPanicLocationsLoop_fst (cands : List DataVariable) :
    ∀ (bv : BinaryView) (acc : List DataVariable),
    (setPanicLocationsLoop bv cands acc).1 =
      acc ++ cands.filterMap (fun c =>
        if bv.defineOk c.address then some (panicVarFor bv c) else none) := by
  induction cands with
  | nil => intro bv acc; simp [setPanicLocationsLoop]
  | cons c rest ih =>
    intro bv acc
    by_cases hd : bv.defineOk c.address
    · simp [setPanicLocationsLoop, CorePanicLocation.create_binary_ninja_instance,
        BinaryView.define_user_data_var, hd, ih, panicVarFor, recordValueAt_update]
    · simp [setPanicLocationsLoop, CorePanicLocation.create_binary_ninja_instance,
        BinaryView.define_user_data_var, hd, ih]

/-- C7: synthesis never raises; a candidate for which the host refuses the
typed-object definition is omitted, every other candidate is still
processed, and the returned list holds exactly the successfully created
records, in order. -/
theorem c7_synthesize_skips_failures (bv : BinaryView)
    (cands : List DataVariable)
    (h : CorePanicLocation.check_binary_ninja_type_exists bv = true) :
    (set_panic_locations_from_source_file_path_string_variables bv cands).1 =
      cands.filterMap (fun c =>
        if bv.defineOk c.address then some (panicVarFor bv c) else none) := by
  simp [set_panic_locations_from_source_file_path_string_variables, h,
    setPanicLocationsLoop_fst]

def dvC7bad : DataVariable :=
  { address := 0x40, name := "bad", varType := "&str",
    value := some (PyValue.strView 0x400) }

def dvC7good : DataVariable :=
  { address := 0x44, name := "good", varType := "&str",
    value := some (PyValue.strView 0x440) }

/-- A view with the type registered where the definition at 0x40 is
refused by the host (an incompatible object overlaps it). -/
def bvC7 : BinaryView :=
  { bvTy with defineOk := fun a => !(a == 0x40) }

/-- Witness for C7: one refused candidate and one accepted candidate. -/
theorem c7_synthesize_skips_failures_witness :
    CorePanicLocation.check_binary_ninja_type_exists bvC7 = true ∧
    (set_panic_locations_from_source_file_path_string_variables bvC7
        [dvC7bad, dvC7good]).1 =
      [dvC7bad, dvC7good].filterMap (fun c =>
        if bvC7.defineOk c.address then some (panicVarFor bvC7 c) else none) :=
  ⟨rfl, c7_synthesize_skips_failures bvC7 [dvC7bad, dvC7good] rfl⟩

example :
    (set_panic_locations_from_source_file_path_string_variables bvC7
        [dvC7bad, dvC7good]).1 = [panicVarFor bvC7 dvC7good] := by decide

/-! ### Claim C1: transaction bracketing of mutations -/

/-- Events creating data objects, tag types or tags. -/
def isDataOrTagEvent : Event → Bool
  | Event.definedData _ => true
  | Event.createdTagType _ => true
  | Event.addedTag _ => true
  | _ => false

/-- Events registering a type. -/
def isTypeDefEvent : Event → Bool
  | Event.definedType _ => true
  | _ => false

/-- Events creating a type, data object, tag type or tag. -/
def isCreationEvent (e : Event) : Bool := isTypeDefEvent e || isDataOrTagEvent e

/-- Scan an event log keeping track of whether an undo bracket is open,
requiring every event selected by sel to occur while one is. -/
def mutationsInsideUndo (sel : Event → Bool) : Bool → List Event → Bool
  | _, [] => true
  | _, Event.beganUndo :: rest => mutationsInsideUndo sel true rest
  | _, Event.committedUndo :: rest => mutationsInsideUndo sel false rest
  | inside, e :: rest =>
    (!sel e || inside) && mutationsInsideUndo sel inside rest

/-- All creations (types, data objects, tag types, tags) happen inside the
begin/commit bracket. -/
def allCreationsWithinUndo (evs : List Event) : Bool :=
  mutationsInsideUndo isCreationEvent false evs

/-- All data-object and tag creations happen inside the bracket. -/
def dataTagCreationsWithinUndo (evs : List Event) : Bool :=
  mutationsInsideUndo isDataOrTagEvent false evs

/-- Every type registration precedes the opening of the undo bracket. -/
def typeDefsPrecedeUndo : List Event → Bool
  | [] => true
  | Event.beganUndo :: rest => rest.all (fun e => !isTypeDefEvent e)
  | _ :: rest => typeDefsPrecedeUndo rest

/-- C1 counterexample: a run of the entry point on a view with an
architecture present registers the record type before begin_undo_actions,
so not every creation lies inside the begin/commit bracket. -/
theorem c1_counterexample :
    exceptIsOk (Carver.main bvMin) = true ∧
    (runMainOr bvMin).events =
      [Event.definedType "core::panic::Location", Event.beganUndo,
       Event.committedUndo, Event.updatedAnalysis] ∧
    allCreationsWithinUndo (runMainOr bvMin).events = false :=
  ⟨rfl, rfl, rfl⟩

/-! Event-log shape lemmas for the pipeline stages. -/

theorem create_type_events (bv : BinaryView) :
    ∃ pre, (CorePanicLocation.create_binary_ninja_type bv).events
        = bv.events ++ pre ∧ pre.all isTypeDefEvent = true := by
  by_cases ha : bv.archPresent
  · exact ⟨[Event.definedType "core::panic::Location"],
      by simp [CorePanicLocation.create_binary_ninja_type, ha,
        BinaryView.define_user_type], by rfl⟩
  · exact ⟨[], by simp [CorePanicLocation.create_binary_ninja_type, ha], rfl⟩

/-- The data-definition events produced by the synthesis loop. -/
def synthEvents (ok : Nat → Bool) : List DataVariable → List Event
  | [] => []
  | c :: rest =>
    if ok c.address then Event.definedData c.address :: synthEvents ok rest
    else synthEvents ok rest

theorem synthEvents_all (ok : Nat → Bool) (cands : List DataVariable) :
    (synthEvents ok cands).all isDataOrTagEvent = true := by
  induction cands with
  | nil => rfl
  | cons c rest ih =>
    by_cases hd : ok c.address <;> simp [synthEvents, hd, ih, isDataOrTagEvent]

theorem setPanicLocationsLoop_events (cands : List DataVariable) :
    ∀ (bv : BinaryView) (acc : List DataVariable),
    (setPanicLocationsLoop bv cands acc).2.events =
      bv.events ++ synthEvents bv.defineOk cands := by
  induction cands with
  | nil => intro bv acc; simp [setPanicLocationsLoop, synthEvents]
  | cons c rest ih =>
    intro bv acc
    by_cases hd : bv.defineOk c.address <;>
      simp [setPanicLocationsLoop, CorePanicLocation.create_binary_ninja_instance,
        BinaryView.define_user_data_var, hd, ih, synthEvents]

theorem synth_events (bv : BinaryView) (sfp : List DataVariable) :
    ∃ l, (set_panic_locations_from_source_file_path_string_variables bv sfp).2.events
        = bv.events ++ l ∧ l.all isDataOrTagEvent = true := by
  by_cases hex : CorePanicLocation.check_binary_ninja_type_exists bv
  · exact ⟨synthEvents bv.defineOk sfp,
      by simp [set_panic_locations_from_source_file_path_string_variables, hex,
        setPanicLocationsLoop_events],
      synthEvents_all bv.defineOk sfp⟩
  · exact ⟨[],
      by simp [set_panic_locations_from_source_file_path_string_variables, hex],
      rfl⟩

theorem addTagsAtRefs_events (ttn d : String) (crs : List Nat) :
    ∀ bv : BinaryView, (addTagsAtRefs ttn d crs bv).events =
      bv.events ++ crs.map Event.addedTag := by
  induction crs with
  | nil => intro bv; simp [addTagsAtRefs]
  | cons cr crs ih =>
    intro bv
    simp [addTagsAtRefs, BinaryView.add_tag, ih]

theorem all_map_addedTag (crs : List Nat) :
    ((crs.map Event.addedTag).all isDataOrTagEvent) = true := by
  induction crs with
  | nil => rfl
  | cons cr crs ih => simp [isDataOrTagEvent, ih]

theorem annotate_events (locs : List DataVariable) :
    ∀ (bv bvr : BinaryView),
    find_panic_location_code_refs_and_set_tags bv locs = Except.ok bvr →
    ∃ l, bvr.events = bv.events ++ l ∧ l.all isDataOrTagEvent = true := by
  induction locs with
  | nil =>
    intro bv bvr h
    simp [find_panic_location_code_refs_and_set_tags] at h
    exact ⟨[], by simp [h], rfl⟩
  | cons p rest ih =>
    intro bv bvr h
    cases hv : p.value with
    | none => simp [find_panic_location_code_refs_and_set_tags, hv] at h
    | some v =>
      cases v with
      | bytes d => simp [find_panic_location_code_refs_and_set_tags, hv] at h
      | text s => simp [find_panic_location_code_refs_and_set_tags, hv] at h
      | strView a => simp [find_panic_location_code_refs_and_set_tags, hv] at h
      | intVal n => simp [find_panic_location_code_refs_and_set_tags, hv] at h
      | record f li c =>
        cases hg : bv.get_data_var_at f with
        | none =>
          rw [show find_panic_location_code_refs_and_set_tags bv (p :: rest)
              = find_panic_location_code_refs_and_set_tags bv rest by
            simp [find_panic_location_code_refs_and_set_tags, hv, hg]] at h
          exact ih bv bvr h
        | some sd =>
          cases hdec : valueDecode sd.value with
          | error e =>
            simp [find_panic_location_code_refs_and_set_tags, hv, hg, hdec] at h
          | ok path =>
            rw [show find_panic_location_code_refs_and_set_tags bv (p :: rest)
                = find_panic_location_code_refs_and_set_tags
                    (addTagsAtRefs
                      (path ++ " - Rust Panic Location Source File Path")
                      (path ++ ": line " ++ toString li ++ ", col " ++ toString c)
                      (bv.codeRefs p.address)
                      (bv.create_tag_type
                        (path ++ " - Rust Panic Location Source File Path") "😱"))
                    rest by
              simp [find_panic_location_code_refs_and_set_tags, hv, hg, hdec]] at h
            obtain ⟨l, hl, ha⟩ := ih _ _ h
            refine ⟨Event.createdTagType
                (path ++ " - Rust Panic Location Source File Path")
                :: ((bv.codeRefs p.address).map Event.addedTag ++ l), ?_, ?_⟩
            · rw [hl, addTagsAtRefs_events]
              simp [BinaryView.create_tag_type]
            · simp [isDataOrTagEvent, List.all_append, ha, all_map_addedTag]

/-- Shape of the event log of a successful run: some type-definition
events, then the bracket opening, then only data/tag creations, then the
bracket commit and the re-analysis trigger. -/
theorem main_events (bv bvr : BinaryView)
    (h : Carver.main bv = Except.ok bvr) :
    ∃ pre mid, bvr.events = bv.events ++ pre ++ [Event.beganUndo] ++ mid
        ++ [Event.committedUndo, Event.updatedAnalysis]
      ∧ pre.all isTypeDefEvent = true ∧ mid.all isDataOrTagEvent = true := by
  simp only [Carver.main] at h
  split at h
  · exact Except.noConfusion h
  · next sfp hscan =>
    split at h
    · exact Except.noConfusion h
    · next bv4 hann =>
      have hbvr : bvr = (bv4.commit_undo_actions).update_analysis := by
        injection h with h2
        exact h2.symm
      obtain ⟨pre, hcre, hcrea⟩ := create_type_events bv
      obtain ⟨dl, hdl, hdla⟩ := synth_events
        ((CorePanicLocation.create_binary_ninja_type bv).begin_undo_actions) sfp
      obtain ⟨tl, htl, htla⟩ := annotate_events _ _ _ hann
      refine ⟨pre, dl ++ tl, ?_, hcrea, ?_⟩
      · rw [hbvr]
        simp only [BinaryView.update_analysis, BinaryView.commit_undo_actions]
        rw [htl, hdl]
        simp only [BinaryView.begin_undo_actions]
        rw [hcre]
        simp [List.append_assoc]
      · simp [List.all_append, hdla, htla]

/-! Fold lemmas over the bracket checkers. -/

theorem insideUndo_skip_typedefs (pre : List Event)
    (hp : pre.all isTypeDefEvent = true) (rest : List Event) :
    mutationsInsideUndo isDataOrTagEvent false (pre ++ rest)
      = mutationsInsideUndo isDataOrTagEvent false rest := by
  induction pre with
  | nil => rfl
  | cons e pre ih =>
    simp only [List.all_cons, Bool.and_eq_true] at hp
    obtain ⟨he, hp2⟩ := hp
    cases e with
    | definedType n =>
      simp [mutationsInsideUndo, isDataOrTagEvent, ih hp2]
    | definedData a => simp [isTypeDefEvent] at he
    | createdTagType n => simp [isTypeDefEvent] at he
    | addedTag a => simp [isTypeDefEvent] at he
    | beganUndo => simp [isTypeDefEvent] at he
    | committedUndo => simp [isTypeDefEvent] at he
    | updatedAnalysis => simp [isTypeDefEvent] at he

theorem insideUndo_data_tags (mid : List Event)
    (hm : mid.all isDataOrTagEvent = true) (rest : List Event) :
    mutationsInsideUndo isDataOrTagEvent true (mid ++ rest)
      = mutationsInsideUndo isDataOrTagEvent true rest := by
  induction mid with
  | nil => rfl
  | cons e mid ih =>
    simp only [List.all_cons, Bool.and_eq_true] at hm
    obtain ⟨he, hm2⟩ := hm
    cases e with
    | definedType n => simp [isDataOrTagEvent] at he
    | definedData a => simp [mutationsInsideUndo, isDataOrTagEvent, ih hm2]
    | createdTagType n => simp [mutationsInsideUndo, isDataOrTagEvent, ih hm2]
    | addedTag a => simp [mutationsInsideUndo, isDataOrTagEvent, ih hm2]
    | beganUndo => simp [isDataOrTagEvent] at he
    | committedUndo => simp [isDataOrTagEvent] at he
    | updatedAnalysis => simp [isDataOrTagEvent] at he

theorem typeDefsPrecedeUndo_skip (pre : List Event)
    (hp : pre.all isTypeDefEvent = true) (rest : List Event) :
    typeDefsPrecedeUndo (pre ++ Event.beganUndo :: rest)
      = rest.all (fun e => !isTypeDefEvent e) := by
  induction pre with
  | nil => rfl
  | cons e pre ih =>
    simp only [List.all_cons, Bool.and_eq_true] at hp
    obtain ⟨he, hp2⟩ := hp
    cases e with
    | definedType n => simpa [typeDefsPrecedeUndo] using ih hp2
    | definedData a => simp [isTypeDefEvent] at he
    | createdTagType n => simp [isTypeDefEvent] at he
    | addedTag a => simp [isTypeDefEvent] at he
    | beganUndo => simp [isTypeDefEvent] at he
    | committedUndo => simp [isTypeDefEvent] at he
    | updatedAnalysis => simp [isTypeDefEvent] at he

theorem dataTag_not_typedef (l : List Event)
    (h : l.all isDataOrTagEvent = true) :
    l.all (fun e => !isTypeDefEvent e) = true := by
  induction l with
  | nil => rfl
  | cons e l ih =>
    simp only [List.all_cons, Bool.and_eq_true] at h ⊢
    obtain ⟨he, h2⟩ := h
    refine ⟨?_, ih h2⟩
    cases e with
    | definedType n => simp [isDataOrTagEvent] at he
    | definedData a => simp [isTypeDefEvent]
    | createdTagType n => simp [isTypeDefEvent]
    | addedTag a => simp [isTypeDefEvent]
    | beganUndo => simp [isDataOrTagEvent] at he
    | committedUndo => simp [isDataOrTagEvent] at he
    | updatedAnalysis => simp [isDataOrTagEvent] at he

/-- C1 amended: in every successful run of the entry point starting from
an empty log, all data-object and tag creations occur inside the interval
bracketed by begin_undo_actions and commit_undo_actions, but the type
registration occurs before the bracket opens (the claims original
placement of the type registration inside the bracket is refuted by the
counterexample). -/
theorem c1_amended_type_registered_outside_bracket (bv bvr : BinaryView)
    (h0 : bv.events = []) (h : Carver.main bv = Except.ok bvr) :
    dataTagCreationsWithinUndo bvr.events = true ∧
    typeDefsPrecedeUndo bvr.events = true := by
  obtain ⟨pre, mid, hev, hpre, hmid⟩ := main_events bv bvr h
  rw [hev, h0]
  simp only [List.nil_append, List.append_assoc, List.singleton_append]
  constructor
  · show mutationsInsideUndo isDataOrTagEvent false
      (pre ++ Event.beganUndo :: (mid ++ [Event.committedUndo, Event.updatedAnalysis]))
      = true
    rw [insideUndo_skip_typedefs pre hpre]
    show mutationsInsideUndo isDataOrTagEvent true
      (mid ++ [Event.committedUndo, Event.updatedAnalysis]) = true
    rw [insideUndo_data_tags mid hmid]
    rfl
  · show typeDefsPrecedeUndo
      (pre ++ Event.beganUndo :: (mid ++ [Event.committedUndo, Event.updatedAnalysis]))
      = true
    rw [typeDefsPrecedeUndo_skip pre hpre, List.all_append,
      dataTag_not_typedef mid hmid]
    rfl

/-- Witness for the amended C1 at the minimal view. -/
theorem c1_amended_type_registered_outside_bracket_witness :
    dataTagCreationsWithinUndo (runMainOr bvMin).events = true ∧
    typeDefsPrecedeUndo (runMainOr bvMin).events = true :=
  c1_amended_type_registered_outside_bracket bvMin (runMainOr bvMin) rfl rfl
